import Mathlib

/-!
Verification of `freezer/osclients.py` (OpenStack freezer backup orchestration).

The file shallowly embeds the code of `ClientManager` and
`DryRunSwiftclientConnectionWrapper`.  External SDK clients (cinderclient,
swiftclient, glanceclient, novaclient) are out of scope of the repository and
are modelled as opaque capability records; the time-varying answers of the
remote cinder service are modelled as oracles indexed by the number of the
status fetch.  Polling loops, which the source runs without any bound, are
embedded with an explicit fuel argument: `Outcome.outOfFuel` means the loop
was still polling when the fuel ran out, so "the loop never returns" is
expressed as "for every fuel the outcome is `outOfFuel`".
-/

namespace Freezer

/-- A cinder snapshot object as seen by the client: id, size and status
string (`"creating"`, `"available"`, `"error"`, ...). -/
structure Snapshot where
  id : Nat
  size : Nat
  status : String
deriving DecidableEq, Repr

/-- A cinder volume object as seen by the client. -/
structure Volume where
  id : Nat
  size : Nat
  status : String
deriving DecidableEq, Repr

/-- A glance image object (opaque to the orchestration code). -/
structure Image where
  id : Nat
deriving DecidableEq, Repr

/-- Result of one `volume_snapshots.get` call: either a snapshot object or a
raised exception (caught by the loop's `except Exception` handler). -/
inductive FetchResult where
  | ok (s : Snapshot)
  | exn (msg : String)
deriving DecidableEq, Repr

/-- Result of one `volumes.get` call. -/
inductive VFetchResult where
  | ok (v : Volume)
  | exn (msg : String)
deriving DecidableEq, Repr

/-- Instrumentation counters of a polling loop run: number of status fetch
attempts issued, number of executed `time.sleep(5)` calls (each one a fixed
5-time-unit delay), and number of exceptions caught and logged by the
`except Exception` handler. -/
structure PollStats where
  fetches : Nat
  sleeps : Nat
  caught : Nat
deriving DecidableEq, Repr

/-- Outcome of a fuel-bounded run of a polling loop.
`returned x st` : the method returned the object `x` to its caller;
`exited code st` : the process was terminated (`logging.error` followed by
`exit(code)` -- `exit` raises `SystemExit`, which `except Exception` does not
catch, so it ends the whole run at once);
`outOfFuel x st` : the loop was still polling after `fuel` iterations. -/
inductive Outcome (β : Type) where
  | returned : β → PollStats → Outcome β
  | exited : Nat → PollStats → Outcome β
  | outOfFuel : β → PollStats → Outcome β
deriving DecidableEq, Repr

/-- The poll loop of `ClientManager.provide_snapshot` (osclients.py lines
171-181):

    while snapshot.status != "available":
        try:
            logging.info("[*] Snapshot status: " + snapshot.status)
            snapshot = self.get_cinder().volume_snapshots.get(snapshot.id)
            if snapshot.status == "error":
                logging.error("snapshot have error state")
                exit(1)
            time.sleep(5)
        except Exception as e:
            logging.info(e)

`get` is the oracle for `volume_snapshots.get`, indexed by the fetch-attempt
counter (the source always queries the current snapshot's id).  A successful
fetch replaces the loop variable; if its status is `"error"` the process
exits with code 1 before any sleep; otherwise the loop sleeps 5 time units
and re-tests the condition.  A raised fetch jumps over the sleep into the
`except` handler, which only logs, so the loop retries with the same
snapshot and no added sleep. -/
def providePoll (get : Nat → FetchResult) (fuel : Nat) (snap : Snapshot)
    (fetches sleeps caught : Nat) : Outcome Snapshot :=
  if snap.status = "available" then
    Outcome.returned snap ⟨fetches, sleeps, caught⟩
  else
    match fuel with
    | 0 => Outcome.outOfFuel snap ⟨fetches, sleeps, caught⟩
    | fuel' + 1 =>
      match get fetches with
      | FetchResult.ok s =>
        if s.status = "error" then
          Outcome.exited 1 ⟨fetches + 1, sleeps, caught⟩
        else
          providePoll get fuel' s (fetches + 1) (sleeps + 1) caught
      | FetchResult.exn _ =>
        providePoll get fuel' snap (fetches + 1) sleeps (caught + 1)

/-- The snapshot-creation request issued by `provide_snapshot`:
`volume_snapshots.create(volume_id=volume.id, display_name=snapshot_name,
force=True)`. -/
structure SnapshotCreateReq where
  volume_id : Nat
  display_name : String
  force : Bool
deriving DecidableEq, Repr

/-- Capability record for the cinder `volume_snapshots` API used by
`provide_snapshot`: `create` answers the creation request, `get` is the
status-fetch oracle indexed by attempt number. -/
structure CinderSnapshots where
  create : SnapshotCreateReq → Snapshot
  get : Nat → FetchResult

/-- `ClientManager.provide_snapshot` (osclients.py lines 159-181): issue the
forced snapshot-creation request, then run the poll loop on its result.
Besides the loop outcome we return the request that was issued, so that its
fields can be inspected. -/
def provide_snapshot (caps : CinderSnapshots) (volume : Volume)
    (snapshot_name : String) (fuel : Nat) :
    Outcome Snapshot × SnapshotCreateReq :=
  let req : SnapshotCreateReq :=
    { volume_id := volume.id, display_name := snapshot_name, force := true }
  let snapshot := caps.create req
  (providePoll caps.get fuel snapshot 0 0 0, req)

/-- `true` iff the fetch attempt succeeded (did not raise). -/
def FetchResult.isOk : FetchResult → Bool
  | FetchResult.ok _ => true
  | FetchResult.exn _ => false

/-- `true` iff the fetch attempt raised an exception. -/
def FetchResult.isExn : FetchResult → Bool
  | FetchResult.ok _ => false
  | FetchResult.exn _ => true

/-- `true` iff the fetch succeeded with a status that is neither
`"available"` nor `"error"` (a still-pending snapshot), or raised: exactly
the results that keep `providePoll` looping. -/
def pendingOrExn : FetchResult → Bool
  | FetchResult.ok s => s.status != "available" && s.status != "error"
  | FetchResult.exn _ => true

/-- Number of fetch attempts among attempts `f, f+1, ..., f+k-1` that
succeeded (did not raise). -/
def okCount (get : Nat → FetchResult) : Nat → Nat → Nat
  | _, 0 => 0
  | f, k + 1 => (if (get f).isOk then 1 else 0) + okCount get (f + 1) k

/-- Number of fetch attempts among attempts `f, f+1, ..., f+k-1` that raised
an exception. -/
def exnCount (get : Nat → FetchResult) : Nat → Nat → Nat
  | _, 0 => 0
  | f, k + 1 => (if (get f).isExn then 1 else 0) + exnCount get (f + 1) k

theorem providePoll_available (get : Nat → FetchResult) (fuel : Nat)
    (snap : Snapshot) (f s c : Nat) (h : snap.status = "available") :
    providePoll get fuel snap f s c = Outcome.returned snap ⟨f, s, c⟩ := by
  rw [providePoll.eq_def]
  simp [h]

theorem providePoll_zero (get : Nat → FetchResult) (snap : Snapshot)
    (f s c : Nat) (h : ¬ snap.status = "available") :
    providePoll get 0 snap f s c = Outcome.outOfFuel snap ⟨f, s, c⟩ := by
  rw [providePoll.eq_def]
  simp [h]

theorem providePoll_ok (get : Nat → FetchResult) (fuel : Nat)
    (snap s' : Snapshot) (f s c : Nat) (h : ¬ snap.status = "available")
    (hg : get f = FetchResult.ok s') (he : ¬ s'.status = "error") :
    providePoll get (fuel + 1) snap f s c
      = providePoll get fuel s' (f + 1) (s + 1) c := by
  rw [providePoll.eq_def]
  simp [h, hg, he]

theorem providePoll_exit (get : Nat → FetchResult) (fuel : Nat)
    (snap e : Snapshot) (f s c : Nat) (h : ¬ snap.status = "available")
    (hg : get f = FetchResult.ok e) (he : e.status = "error") :
    providePoll get (fuel + 1) snap f s c
      = Outcome.exited 1 ⟨f + 1, s, c⟩ := by
  rw [providePoll.eq_def]
  simp [h, hg, he]

theorem providePoll_exn (get : Nat → FetchResult) (fuel : Nat)
    (snap : Snapshot) (f s c : Nat) (m : String)
    (h : ¬ snap.status = "available") (hg : get f = FetchResult.exn m) :
    providePoll get (fuel + 1) snap f s c
      = providePoll get fuel snap (f + 1) s (c + 1) := by
  rw [providePoll.eq_def]
  simp [h, hg]

/-- A run of the snapshot poll loop over `k` attempts that all keep it
looping (pending status or raised exception), followed by an attempt that
reports `"available"`, returns that snapshot: `k + 1` fetch attempts in
total, one sleep per successful fetch plus the final one (raising attempts
add no sleep), one caught exception per raising attempt. -/
theorem providePoll_success (get : Nat → FetchResult) (k : Nat) :
    ∀ (fuel : Nat) (snap : Snapshot) (f s c : Nat),
    ¬ snap.status = "available" →
    (∀ j, j < k → pendingOrExn (get (f + j)) = true) →
    (∃ a, get (f + k) = FetchResult.ok a ∧ a.status = "available") →
    k < fuel →
    ∃ a, a.status = "available" ∧
      providePoll get fuel snap f s c =
        Outcome.returned a
          ⟨f + k + 1, s + okCount get f k + 1, c + exnCount get f k⟩ := by
  induction k with
  | zero =>
    intro fuel snap f s c h0 _ hk hfuel
    obtain ⟨a, hga, ha⟩ := hk
    obtain ⟨fuel', rfl⟩ : ∃ n, fuel = n + 1 := by
      cases fuel with
      | zero => omega
      | succ n => exact ⟨n, rfl⟩
    rw [Nat.add_zero] at hga
    have he : ¬ a.status = "error" := by rw [ha]; decide
    refine ⟨a, ha, ?_⟩
    rw [providePoll_ok get fuel' snap a f s c h0 hga he,
      providePoll_available get fuel' a (f + 1) (s + 1) c ha]
    simp [okCount, exnCount]
  | succ k ih =>
    intro fuel snap f s c h0 hloop hk hfuel
    obtain ⟨fuel', rfl⟩ : ∃ n, fuel = n + 1 := by
      cases fuel with
      | zero => omega
      | succ n => exact ⟨n, rfl⟩
    have h1 := hloop 0 (Nat.succ_pos k)
    rw [Nat.add_zero] at h1
    have hshift : ∀ j, j < k → pendingOrExn (get (f + 1 + j)) = true := by
      intro j hj
      have e : f + 1 + j = f + (j + 1) := by omega
      rw [e]
      exact hloop (j + 1) (by omega)
    have hkshift : ∃ a, get (f + 1 + k) = FetchResult.ok a ∧
        a.status = "available" := by
      have e : f + 1 + k = f + (k + 1) := by omega
      rw [e]
      exact hk
    cases hr : get f with
    | ok s0 =>
      have hpend : s0.status != "available" && s0.status != "error" := by
        have := h1
        rw [hr] at this
        exact this
      have hs0a : ¬ s0.status = "available" := by
        simp only [Bool.and_eq_true, bne_iff_ne, ne_eq] at hpend
        exact hpend.1
      have hs0e : ¬ s0.status = "error" := by
        simp only [Bool.and_eq_true, bne_iff_ne, ne_eq] at hpend
        exact hpend.2
      obtain ⟨a, ha, heq⟩ :=
        ih fuel' s0 (f + 1) (s + 1) c hs0a hshift hkshift (by omega)
      refine ⟨a, ha, ?_⟩
      rw [providePoll_ok get fuel' snap s0 f s c h0 hr hs0e, heq]
      have hok : (get f).isOk = true := by rw [hr]; rfl
      have hex : (get f).isExn = false := by rw [hr]; rfl
      simp only [okCount, exnCount, hok, hex, if_true, if_false,
        Outcome.returned.injEq, Outcome.exited.injEq, PollStats.mk.injEq,
        Bool.false_eq_true, if_false, true_and]
      omega
    | exn m =>
      obtain ⟨a, ha, heq⟩ :=
        ih fuel' snap (f + 1) s (c + 1) h0 hshift hkshift (by omega)
      refine ⟨a, ha, ?_⟩
      rw [providePoll_exn get fuel' snap f s c m h0 hr, heq]
      have hok : (get f).isOk = false := by rw [hr]; rfl
      have hex : (get f).isExn = true := by rw [hr]; rfl
      simp only [okCount, exnCount, hok, hex, if_true, if_false,
        Outcome.returned.injEq, Outcome.exited.injEq, PollStats.mk.injEq,
        Bool.false_eq_true, if_false, true_and]
      omega

/-- A run of the snapshot poll loop over `k` attempts that all keep it
looping, followed by an attempt whose snapshot has status `"error"`, ends in
`exit(1)`: the error is detected right after the fetch, before any further
sleep, and `SystemExit` is not caught by the `except Exception` handler. -/
theorem providePoll_reaches_error (get : Nat → FetchResult) (k : Nat) :
    ∀ (fuel : Nat) (snap : Snapshot) (f s c : Nat),
    ¬ snap.status = "available" →
    (∀ j, j < k → pendingOrExn (get (f + j)) = true) →
    (∃ e, get (f + k) = FetchResult.ok e ∧ e.status = "error") →
    k < fuel →
    providePoll get fuel snap f s c =
      Outcome.exited 1
        ⟨f + k + 1, s + okCount get f k, c + exnCount get f k⟩ := by
  induction k with
  | zero =>
    intro fuel snap f s c h0 _ hk hfuel
    obtain ⟨e, hge, hees⟩ := hk
    obtain ⟨fuel', rfl⟩ : ∃ n, fuel = n + 1 := by
      cases fuel with
      | zero => omega
      | succ n => exact ⟨n, rfl⟩
    rw [Nat.add_zero] at hge
    rw [providePoll_exit get fuel' snap e f s c h0 hge hees]
    simp [okCount, exnCount]
  | succ k ih =>
    intro fuel snap f s c h0 hloop hk hfuel
    obtain ⟨fuel', rfl⟩ : ∃ n, fuel = n + 1 := by
      cases fuel with
      | zero => omega
      | succ n => exact ⟨n, rfl⟩
    have h1 := hloop 0 (Nat.succ_pos k)
    rw [Nat.add_zero] at h1
    have hshift : ∀ j, j < k → pendingOrExn (get (f + 1 + j)) = true := by
      intro j hj
      have e : f + 1 + j = f + (j + 1) := by omega
      rw [e]
      exact hloop (j + 1) (by omega)
    have hkshift : ∃ e, get (f + 1 + k) = FetchResult.ok e ∧
        e.status = "error" := by
      have e : f + 1 + k = f + (k + 1) := by omega
      rw [e]
      exact hk
    cases hr : get f with
    | ok s0 =>
      have hpend : s0.status != "available" && s0.status != "error" := by
        have := h1
        rw [hr] at this
        exact this
      have hs0a : ¬ s0.status = "available" := by
        simp only [Bool.and_eq_true, bne_iff_ne, ne_eq] at hpend
        exact hpend.1
      have hs0e : ¬ s0.status = "error" := by
        simp only [Bool.and_eq_true, bne_iff_ne, ne_eq] at hpend
        exact hpend.2
      rw [providePoll_ok get fuel' snap s0 f s c h0 hr hs0e,
        ih fuel' s0 (f + 1) (s + 1) c hs0a hshift hkshift (by omega)]
      have hok : (get f).isOk = true := by rw [hr]; rfl
      have hex : (get f).isExn = false := by rw [hr]; rfl
      simp only [okCount, exnCount, hok, hex, if_true, if_false,
        Outcome.returned.injEq, Outcome.exited.injEq, PollStats.mk.injEq,
        Bool.false_eq_true, if_false, true_and]
      omega
    | exn m =>
      rw [providePoll_exn get fuel' snap f s c m h0 hr,
        ih fuel' snap (f + 1) s (c + 1) h0 hshift hkshift (by omega)]
      have hok : (get f).isOk = false := by rw [hr]; rfl
      have hex : (get f).isExn = true := by rw [hr]; rfl
      simp only [okCount, exnCount, hok, hex, if_true, if_false,
        Outcome.returned.injEq, Outcome.exited.injEq, PollStats.mk.injEq,
        Bool.false_eq_true, if_false, true_and]
      omega

/-- The poll loop of `ClientManager.do_copy_volume` (osclients.py lines
193-201):

    while volume.status != "available":
        try:
            logging.info("[*] Volume copy status: " + volume.status)
            volume = self.get_cinder().volumes.get(volume.id)
            time.sleep(5)
        except Exception as e:
            logging.info(e)
            logging.info("[*] Exception getting volume status")

Same shape as `providePoll` except that the body has no error-status test at
all: a fetched volume only ends the loop if its status is `"available"`. -/
def copyPoll (get : Nat → VFetchResult) (fuel : Nat) (vol : Volume)
    (fetches sleeps caught : Nat) : Outcome Volume :=
  if vol.status = "available" then
    Outcome.returned vol ⟨fetches, sleeps, caught⟩
  else
    match fuel with
    | 0 => Outcome.outOfFuel vol ⟨fetches, sleeps, caught⟩
    | fuel' + 1 =>
      match get fetches with
      | VFetchResult.ok v =>
        copyPoll get fuel' v (fetches + 1) (sleeps + 1) caught
      | VFetchResult.exn _ =>
        copyPoll get fuel' vol (fetches + 1) sleeps (caught + 1)

/-- The volume-creation request issued by `do_copy_volume`:
`volumes.create(size=snapshot.size, snapshot_id=snapshot.id)`. -/
structure VolumeCreateReq where
  size : Nat
  snapshot_id : Nat
deriving DecidableEq, Repr

/-- Capability record for the cinder `volumes` API used by
`do_copy_volume`: `create` answers the creation request, `get` is the
status-fetch oracle indexed by attempt number. -/
structure CinderVolumes where
  create : VolumeCreateReq → Volume
  get : Nat → VFetchResult

/-- `ClientManager.do_copy_volume` (osclients.py lines 183-201): issue the
volume-creation request sized from the snapshot and sourced from its id,
then run the poll loop on its result.  Besides the loop outcome we return
the request that was issued, so that its fields can be inspected. -/
def do_copy_volume (caps : CinderVolumes) (snapshot : Snapshot)
    (fuel : Nat) : Outcome Volume × VolumeCreateReq :=
  let req : VolumeCreateReq :=
    { size := snapshot.size, snapshot_id := snapshot.id }
  let volume := caps.create req
  (copyPoll caps.get fuel volume 0 0 0, req)

theorem copyPoll_zero (get : Nat → VFetchResult) (vol : Volume)
    (f s c : Nat) (h : ¬ vol.status = "available") :
    copyPoll get 0 vol f s c = Outcome.outOfFuel vol ⟨f, s, c⟩ := by
  rw [copyPoll.eq_def]
  simp [h]

theorem copyPoll_ok (get : Nat → VFetchResult) (fuel : Nat)
    (vol v : Volume) (f s c : Nat) (h : ¬ vol.status = "available")
    (hg : get f = VFetchResult.ok v) :
    copyPoll get (fuel + 1) vol f s c
      = copyPoll get fuel v (f + 1) (s + 1) c := by
  rw [copyPoll.eq_def]
  simp [h, hg]

/-- If every fetch of the volume-copy loop reports status `"error"`, the
loop never terminates: whatever the fuel, the run ends `outOfFuel`, still
holding a non-`"available"` volume, having spent one fetch and one sleep per
fuel unit.  There is no error branch in the loop body, so the `"error"`
status is treated like any other pending status. -/
theorem copyPoll_error_forever (get : Nat → VFetchResult)
    (herr : ∀ n, ∃ v, get n = VFetchResult.ok v ∧ v.status = "error") :
    ∀ (fuel : Nat) (vol : Volume) (f s c : Nat),
    ¬ vol.status = "available" →
    ∃ v, ¬ v.status = "available" ∧
      copyPoll get fuel vol f s c
        = Outcome.outOfFuel v ⟨f + fuel, s + fuel, c⟩ := by
  intro fuel
  induction fuel with
  | zero =>
    intro vol f s c h0
    refine ⟨vol, h0, ?_⟩
    rw [copyPoll_zero get vol f s c h0]
    simp
  | succ fuel ih =>
    intro vol f s c h0
    obtain ⟨v, hv, hvs⟩ := herr f
    have hva : ¬ v.status = "available" := by rw [hvs]; decide
    obtain ⟨w, hw, heq⟩ := ih v (f + 1) (s + 1) c hva
    refine ⟨w, hw, ?_⟩
    rw [copyPoll_ok get fuel vol v f s c h0 hv, heq]
    simp only [Outcome.outOfFuel.injEq, PollStats.mk.injEq]
    exact ⟨trivial, by omega, by omega, trivial⟩

/-- The upload-volume-as-image request issued by `make_glance_image`:
`volumes.upload_to_image(volume=copy_volume, force=True,
image_name=image_volume_name, container_format="bare",
disk_format="raw")`. -/
structure UploadReq where
  volume : Volume
  force : Bool
  image_name : String
  container_format : String
  disk_format : String
deriving DecidableEq, Repr

/-- Capability record for the cinder `volumes.upload_to_image` API. -/
structure CinderUpload where
  upload_to_image : UploadReq → Image

/-- `ClientManager.make_glance_image` (osclients.py lines 203-215): build the
single upload request and return the call's result directly -- no loop, no
polling.  Besides the result we return the list of issued upload requests
(always exactly one). -/
def make_glance_image (caps : CinderUpload) (image_volume_name : String)
    (copy_volume : Volume) : Image × List UploadReq :=
  let req : UploadReq :=
    { volume := copy_volume, force := true, image_name := image_volume_name,
      container_format := "bare", disk_format := "raw" }
  (caps.upload_to_image req, [req])

/-- An opaque authenticated SDK client handle (cinder / swift / glance /
nova object).  Such objects are always truthy in Python, so the source's
`if not self.cinder` cache test is exactly the `Option` test of the
embedding. -/
structure Handle where
  id : Nat
deriving DecidableEq, Repr

/-- What `create_swift` caches: the freshly constructed connection, wrapped
by `DryRunSwiftclientConnectionWrapper` when dry-run mode is on (osclients.py
lines 111-112). -/
inductive SwiftHandle where
  | live (h : Handle)
  | wrapped (h : Handle)
deriving DecidableEq, Repr

/-- The construction capability: what each `cclient.Client(...)` /
`swiftclient.client.Connection(...)` / glance / nova constructor call
returns.  Each construction performs the network authentication
handshake. -/
structure ClientEnv where
  mkCinder : Handle
  mkSwift : Handle
  mkGlance : Handle
  mkNova : Handle

/-- The mutable state of a `ClientManager` (osclients.py lines 20-37): the
four memoised connection slots, all `None` after `__init__`, plus the
dry-run flag.  The `...Auths` fields are instrumentation: call-count spies
on the construction capability (one increment per constructor call, i.e.
per authentication handshake). -/
structure ClientManager where
  dry_run : Bool
  cinder : Option Handle
  swift : Option SwiftHandle
  glance : Option Handle
  nova : Option Handle
  cinderAuths : Nat
  swiftAuths : Nat
  glanceAuths : Nat
  novaAuths : Nat
deriving DecidableEq, Repr

/-- `ClientManager.__init__`: all four connection slots start out `None`. -/
def ClientManager.init (dry_run : Bool) : ClientManager :=
  { dry_run := dry_run, cinder := none, swift := none, glance := none,
    nova := none, cinderAuths := 0, swiftAuths := 0, glanceAuths := 0,
    novaAuths := 0 }

/-- `ClientManager.create_cinder` (osclients.py lines 75-92): construct a
cinder client, cache it in `self.cinder`, return it. -/
def create_cinder (env : ClientEnv) (m : ClientManager) :
    Handle × ClientManager :=
  (env.mkCinder,
    { m with cinder := some env.mkCinder,
             cinderAuths := m.cinderAuths + 1 })

/-- `ClientManager.create_swift` (osclients.py lines 94-113): construct a
swift connection, wrap it in `DryRunSwiftclientConnectionWrapper` when
`self.dry_run`, cache the result in `self.swift`, return it. -/
def create_swift (env : ClientEnv) (m : ClientManager) :
    SwiftHandle × ClientManager :=
  let conn :=
    if m.dry_run then SwiftHandle.wrapped env.mkSwift
    else SwiftHandle.live env.mkSwift
  (conn, { m with swift := some conn, swiftAuths := m.swiftAuths + 1 })

/-- `ClientManager.create_glance` (osclients.py lines 115-138): perform the
secondary endpoint-and-token authentication exchange, construct a glance
client, cache it in `self.glance`, return it. -/
def create_glance (env : ClientEnv) (m : ClientManager) :
    Handle × ClientManager :=
  (env.mkGlance,
    { m with glance := some env.mkGlance,
             glanceAuths := m.glanceAuths + 1 })

/-- `ClientManager.create_nova` (osclients.py lines 140-157): construct a
nova client, cache it in `self.nova`, return it. -/
def create_nova (env : ClientEnv) (m : ClientManager) :
    Handle × ClientManager :=
  (env.mkNova,
    { m with nova := some env.mkNova, novaAuths := m.novaAuths + 1 })

/-- `ClientManager.get_cinder` (osclients.py lines 39-46):
`if not self.cinder: self.create_cinder()` then `return self.cinder`. -/
def get_cinder (env : ClientEnv) (m : ClientManager) :
    Handle × ClientManager :=
  match m.cinder with
  | none => create_cinder env m
  | some h => (h, m)

/-- `ClientManager.get_swift` (osclients.py lines 48-55). -/
def get_swift (env : ClientEnv) (m : ClientManager) :
    SwiftHandle × ClientManager :=
  match m.swift with
  | none => create_swift env m
  | some h => (h, m)

/-- `ClientManager.get_glance` (osclients.py lines 57-64). -/
def get_glance (env : ClientEnv) (m : ClientManager) :
    Handle × ClientManager :=
  match m.glance with
  | none => create_glance env m
  | some h => (h, m)

/-- `ClientManager.get_nova` (osclients.py lines 66-73). -/
def get_nova (env : ClientEnv) (m : ClientManager) :
    Handle × ClientManager :=
  match m.nova with
  | none => create_nova env m
  | some h => (h, m)

/-- A value returned by a swift operation.  `noneVal` is Python `None`, the
result of the wrapper's `dummy` stand-in. -/
inductive SwVal where
  | noneVal
  | val (s : String)
deriving DecidableEq, Repr

/-- The interface of an object-storage connection, as the orchestration core
uses it (spec section 4.2 / section 6): four read-style operations and three
mutating operations.  Each operation acts on a world state `α` (the remote
store, plus whatever instrumentation a test harness cares to put there, such
as a log of the calls that reach this connection) and yields the new world
and a result value. -/
structure SwiftConn (α : Type) where
  get_object : String → String → α → α × SwVal
  get_account : α → α × SwVal
  get_container : String → α → α × SwVal
  head_object : String → String → α → α × SwVal
  put_object : String → String → String → α → α × SwVal
  put_container : String → α → α × SwVal
  delete_object : String → String → α → α × SwVal

/-- `DryRunSwiftclientConnectionWrapper` (osclients.py lines 235-247): keeps
the wrapped connection in `sw_connector`, rebinds the four read operations
to the underlying connection's own methods and the three mutating operations
to `dummy`.  Python's single variadic `dummy(*args, **kwargs): pass` is
embedded as one constant function per arity: accept the arguments, leave the
world untouched, return `None`. -/
structure DryRunSwiftclientConnectionWrapper (α : Type) where
  sw_connector : SwiftConn α
  get_object : String → String → α → α × SwVal
  get_account : α → α × SwVal
  get_container : String → α → α × SwVal
  head_object : String → String → α → α × SwVal
  put_object : String → String → String → α → α × SwVal
  put_container : String → α → α × SwVal
  delete_object : String → String → α → α × SwVal

/-- The `__init__` of `DryRunSwiftclientConnectionWrapper`. -/
def DryRunSwiftclientConnectionWrapper.init (sw_connector : SwiftConn α) :
    DryRunSwiftclientConnectionWrapper α :=
  { sw_connector := sw_connector
    get_object := sw_connector.get_object
    get_account := sw_connector.get_account
    get_container := sw_connector.get_container
    head_object := sw_connector.head_object
    put_object := fun _ _ _ w => (w, SwVal.noneVal)
    put_container := fun _ w => (w, SwVal.noneVal)
    delete_object := fun _ _ w => (w, SwVal.noneVal) }

/-- The interface view of a wrapper: the seven operations a caller can
invoke, packaged as a `SwiftConn` -- the same type as a real connection, so
the wrapper and a real connection have the same interface shape. -/
def DryRunSwiftclientConnectionWrapper.asConn
    (w : DryRunSwiftclientConnectionWrapper α) : SwiftConn α :=
  { get_object := w.get_object
    get_account := w.get_account
    get_container := w.get_container
    head_object := w.head_object
    put_object := w.put_object
    put_container := w.put_container
    delete_object := w.delete_object }

/-- C1: if every status fetch of the volume-copy loop reports the failure
status `"error"`, `do_copy_volume` never takes an error-specific branch:
for every fuel bound the run neither triggers the fatal process exit nor
returns -- it is still polling (one fetch and one sleep per fuel unit) when
the fuel runs out, and would keep polling until some fetch reported
`"available"`. -/
theorem do_copy_volume_error_status_loops_forever
    (caps : CinderVolumes) (snapshot : Snapshot) (fuel : Nat)
    (h0 : ¬ (caps.create ⟨snapshot.size, snapshot.id⟩).status = "available")
    (herr : ∀ n, ∃ v, caps.get n = VFetchResult.ok v ∧
        v.status = "error") :
    (∃ v, ¬ v.status = "available" ∧
      (do_copy_volume caps snapshot fuel).1
        = Outcome.outOfFuel v ⟨fuel, fuel, 0⟩) ∧
    (∀ w st, (do_copy_volume caps snapshot fuel).1
        ≠ Outcome.returned w st) ∧
    (∀ code st, (do_copy_volume caps snapshot fuel).1
        ≠ Outcome.exited code st) := by
  obtain ⟨v, hva, heq⟩ :=
    copyPoll_error_forever caps.get herr fuel
      (caps.create ⟨snapshot.size, snapshot.id⟩) 0 0 0 h0
  have hrun : (do_copy_volume caps snapshot fuel).1
      = Outcome.outOfFuel v ⟨fuel, fuel, 0⟩ := by
    simp only [do_copy_volume]
    rw [heq]
    simp
  refine ⟨⟨v, hva, hrun⟩, ?_, ?_⟩
  · intro w st h
    rw [hrun] at h
    exact Outcome.noConfusion h
  · intro code st h
    rw [hrun] at h
    exact Outcome.noConfusion h

/-- Concrete fixture for the C1 witness: the created volume starts
`"creating"` and every fetch reports `"error"`. -/
def capsC1 : CinderVolumes :=
  { create := fun _ => { id := 5, size := 3, status := "creating" }
    get := fun _ => VFetchResult.ok { id := 5, size := 3, status := "error" } }

/-- Witness for C1 at a concrete input: snapshot of size 3, fuel 4. -/
theorem do_copy_volume_error_status_loops_forever_witness :
    (∃ v, ¬ v.status = "available" ∧
      (do_copy_volume capsC1 { id := 1, size := 3, status := "x" } 4).1
        = Outcome.outOfFuel v ⟨4, 4, 0⟩) ∧
    (∀ w st, (do_copy_volume capsC1 { id := 1, size := 3, status := "x" } 4).1
        ≠ Outcome.returned w st) ∧
    (∀ code st, (do_copy_volume capsC1 { id := 1, size := 3, status := "x" } 4).1
        ≠ Outcome.exited code st) :=
  do_copy_volume_error_status_loops_forever capsC1
    { id := 1, size := 3, status := "x" } 4 (by decide)
    (fun _ => ⟨{ id := 5, size := 3, status := "error" }, rfl, rfl⟩)

/-- C2: if the polled status sequence of `provide_snapshot` reaches
`"error"` at fetch `k` (after `k` fetches that keep the loop going), the run
ends in `exit(1)` -- an error is logged and the process terminates with a
non-zero status -- and no snapshot is returned to the caller: the
`SystemExit` raised by `exit(1)` is not an `Exception` and is not swallowed
by the loop's transient-exception handler. -/
theorem provide_snapshot_error_exits
    (caps : CinderSnapshots) (volume : Volume) (snapshot_name : String)
    (fuel k : Nat)
    (h0 : ¬ (caps.create ⟨volume.id, snapshot_name, true⟩).status
        = "available")
    (hloop : ∀ j, j < k → pendingOrExn (caps.get j) = true)
    (hk : ∃ e, caps.get k = FetchResult.ok e ∧ e.status = "error")
    (hfuel : k < fuel) :
    (provide_snapshot caps volume snapshot_name fuel).1
      = Outcome.exited 1
          ⟨k + 1, okCount caps.get 0 k, exnCount caps.get 0 k⟩ ∧
    ∀ a st, (provide_snapshot caps volume snapshot_name fuel).1
        ≠ Outcome.returned a st := by
  have hloop' : ∀ j, j < k → pendingOrExn (caps.get (0 + j)) = true := by
    intro j hj
    rw [Nat.zero_add]
    exact hloop j hj
  have hk' : ∃ e, caps.get (0 + k) = FetchResult.ok e ∧
      e.status = "error" := by
    rw [Nat.zero_add]
    exact hk
  have hrun := providePoll_reaches_error caps.get k fuel
    (caps.create ⟨volume.id, snapshot_name, true⟩) 0 0 0 h0 hloop' hk'
    hfuel
  rw [Nat.zero_add, Nat.zero_add, Nat.zero_add] at hrun
  have hmain : (provide_snapshot caps volume snapshot_name fuel).1
      = Outcome.exited 1
          ⟨k + 1, okCount caps.get 0 k, exnCount caps.get 0 k⟩ := by
    simp only [provide_snapshot]
    exact hrun
  refine ⟨hmain, ?_⟩
  intro a st h
  rw [hmain] at h
  exact Outcome.noConfusion h

/-- Concrete fixture for the C2 witness: the snapshot starts `"creating"`,
fetch 0 still reports `"creating"`, fetch 1 reports `"error"`. -/
def capsC2 : CinderSnapshots :=
  { create := fun _ => { id := 7, size := 1, status := "creating" }
    get := fun n =>
      match n with
      | 0 => FetchResult.ok { id := 7, size := 1, status := "creating" }
      | _ => FetchResult.ok { id := 7, size := 1, status := "error" } }

/-- Witness for C2 at a concrete input: the `"error"` fetch is attempt 1,
fuel 3. -/
theorem provide_snapshot_error_exits_witness :
    (provide_snapshot capsC2 { id := 2, size := 1, status := "in-use" }
        "snap" 3).1
      = Outcome.exited 1
          ⟨1 + 1, okCount capsC2.get 0 1, exnCount capsC2.get 0 1⟩ ∧
    ∀ a st, (provide_snapshot capsC2 { id := 2, size := 1, status := "in-use" }
        "snap" 3).1 ≠ Outcome.returned a st :=
  provide_snapshot_error_exits capsC2
    { id := 2, size := 1, status := "in-use" } "snap" 3 1 (by decide)
    (by decide) ⟨{ id := 7, size := 1, status := "error" }, rfl, rfl⟩
    (by decide)

/-- C10: if the snapshot object returned by the initial creation request
already has status `"available"`, `provide_snapshot` returns that very
snapshot with zero status fetches, zero sleeps and zero caught exceptions:
the loop body is never entered, so the fatal exit is impossible. -/
theorem provide_snapshot_initially_available
    (caps : CinderSnapshots) (volume : Volume) (snapshot_name : String)
    (fuel : Nat)
    (h : (caps.create ⟨volume.id, snapshot_name, true⟩).status
        = "available") :
    (provide_snapshot caps volume snapshot_name fuel).1
      = Outcome.returned (caps.create ⟨volume.id, snapshot_name, true⟩)
          ⟨0, 0, 0⟩ := by
  simp only [provide_snapshot]
  exact providePoll_available caps.get fuel
    (caps.create ⟨volume.id, snapshot_name, true⟩) 0 0 0 h

/-- Concrete fixture for the C10 witness: the creation request already
yields an `"available"` snapshot; the fetch oracle would report `"error"`
if it were ever consulted. -/
def capsC10 : CinderSnapshots :=
  { create := fun _ => { id := 4, size := 2, status := "available" }
    get := fun _ => FetchResult.ok { id := 4, size := 2, status := "error" } }

/-- Witness for C10 at a concrete input. -/
theorem provide_snapshot_initially_available_witness :
    (provide_snapshot capsC10 { id := 8, size := 2, status := "in-use" }
        "snap" 9).1
      = Outcome.returned (capsC10.create ⟨8, "snap", true⟩)
          ⟨0, 0, 0⟩ :=
  provide_snapshot_initially_available capsC10
    { id := 8, size := 2, status := "in-use" } "snap" 9 (by decide)

/-- Concrete fixture for C4: the created snapshot starts `"creating"` and
the successive fetches report `"creating"`, `"creating"`, `"available"`. -/
def capsC4 : CinderSnapshots :=
  { create := fun _ => { id := 3, size := 1, status := "creating" }
    get := fun n =>
      match n with
      | 0 => FetchResult.ok { id := 3, size := 1, status := "creating" }
      | 1 => FetchResult.ok { id := 3, size := 1, status := "creating" }
      | _ => FetchResult.ok { id := 3, size := 1, status := "available" } }

/-- C4 counterexample: with the fetched status sequence
`[creating, creating, available]`, `provide_snapshot` does return the
available snapshot after exactly 3 fetches, but it performs 3 sleeps, not
the 2 the claim states: `time.sleep(5)` also runs after the fetch that
reported `"available"`, before the `while` condition is re-tested. -/
theorem provide_snapshot_two_sleeps_counterexample :
    (provide_snapshot capsC4 ⟨1, 1, "in-use"⟩ "snap" 10).1
      = Outcome.returned ⟨3, 1, "available"⟩ ⟨3, 3, 0⟩ ∧
    (provide_snapshot capsC4 ⟨1, 1, "in-use"⟩ "snap" 10).1
      ≠ Outcome.returned ⟨3, 1, "available"⟩ ⟨3, 2, 0⟩ := by
  decide

/-- C4 amended: for an initial snapshot whose status is not `"available"`
and successive fetches reporting `"creating"`, `"creating"`,
`"available"`, `provide_snapshot` returns the available snapshot after
exactly 3 status fetches and exactly 3 sleeps of the fixed 5-time-unit
interval (one per fetch: the loop sleeps after every successful fetch,
including the one that reported `"available"`). -/
theorem provide_snapshot_three_fetches_three_sleeps
    (caps : CinderSnapshots) (volume : Volume) (snapshot_name : String)
    (fuel : Nat)
    (h0 : ¬ (caps.create ⟨volume.id, snapshot_name, true⟩).status
        = "available")
    (hg0 : ∃ s1, caps.get 0 = FetchResult.ok s1 ∧ s1.status = "creating")
    (hg1 : ∃ s2, caps.get 1 = FetchResult.ok s2 ∧ s2.status = "creating")
    (hg2 : ∃ a, caps.get 2 = FetchResult.ok a ∧ a.status = "available")
    (hfuel : 2 < fuel) :
    ∃ a, a.status = "available" ∧
      (provide_snapshot caps volume snapshot_name fuel).1
        = Outcome.returned a ⟨3, 3, 0⟩ := by
  obtain ⟨s1, h1, h1s⟩ := hg0
  obtain ⟨s2, h2, h2s⟩ := hg1
  have hloop : ∀ j, j < 2 → pendingOrExn (caps.get (0 + j)) = true := by
    intro j hj
    rw [Nat.zero_add]
    match j, hj with
    | 0, _ =>
      rw [h1]
      simp [pendingOrExn, h1s]
    | 1, _ =>
      rw [h2]
      simp [pendingOrExn, h2s]
  have hk : ∃ a, caps.get (0 + 2) = FetchResult.ok a ∧
      a.status = "available" := by
    rw [Nat.zero_add]
    exact hg2
  obtain ⟨a, ha, heq⟩ := providePoll_success caps.get 2 fuel
    (caps.create ⟨volume.id, snapshot_name, true⟩) 0 0 0 h0 hloop hk hfuel
  have hok : okCount caps.get 0 2 = 2 := by
    simp [okCount, h1, h2, FetchResult.isOk]
  have hex : exnCount caps.get 0 2 = 0 := by
    simp [exnCount, h1, h2, FetchResult.isExn]
  rw [hok, hex] at heq
  refine ⟨a, ha, ?_⟩
  simp only [provide_snapshot]
  simpa using heq

/-- Witness for the amended C4 at the concrete fixture. -/
theorem provide_snapshot_three_fetches_three_sleeps_witness :
    ∃ a, a.status = "available" ∧
      (provide_snapshot capsC4 ⟨1, 1, "in-use"⟩ "snap" 10).1
        = Outcome.returned a ⟨3, 3, 0⟩ :=
  provide_snapshot_three_fetches_three_sleeps capsC4 ⟨1, 1, "in-use"⟩
    "snap" 10 (by decide)
    ⟨{ id := 3, size := 1, status := "creating" }, rfl, rfl⟩
    ⟨{ id := 3, size := 1, status := "creating" }, rfl, rfl⟩
    ⟨{ id := 3, size := 1, status := "available" }, rfl, rfl⟩
    (by decide)

/-- Concrete fixture for C3: fetch 0 reports `"creating"`, fetch 1 raises a
transient exception, fetch 2 reports `"available"`. -/
def capsC3 : CinderSnapshots :=
  { create := fun _ => { id := 6, size := 1, status := "creating" }
    get := fun n =>
      match n with
      | 0 => FetchResult.ok { id := 6, size := 1, status := "creating" }
      | 1 => FetchResult.exn "ConnectionError"
      | _ => FetchResult.ok { id := 6, size := 1, status := "available" } }

/-- C3 counterexample: with fetches `[creating, raise, available]` the run
catches one exception and still returns the available snapshot after 3 fetch
attempts, but it sleeps only twice.  If the raising attempt were retried
"after the same fixed 5-time-unit delay as a normal iteration", as the claim
states, the run would contain 3 delays (normal iterations sleep once each);
in the code the exception jumps over `time.sleep(5)` into the `except`
handler, so the retry is immediate. -/
theorem provide_snapshot_exn_delay_counterexample :
    (provide_snapshot capsC3 ⟨1, 1, "in-use"⟩ "snap" 10).1
      = Outcome.returned ⟨6, 1, "available"⟩ ⟨3, 2, 1⟩ ∧
    (provide_snapshot capsC3 ⟨1, 1, "in-use"⟩ "snap" 10).1
      ≠ Outcome.returned ⟨6, 1, "available"⟩ ⟨3, 3, 1⟩ := by
  decide

/-- C3 amended: every transient exception raised by a status fetch is caught
and logged inside the loop (counted in `caught`) and the loop goes on
rather than aborting, but the retry is immediate: the raising attempt
contributes no 5-time-unit sleep (the exception skips `time.sleep(5)`), so
the sleeps of a successful run number one per successful fetch
(`okCount + 1`) instead of one per attempt.  The method still eventually
returns the snapshot once a later fetch reports `"available"`. -/
theorem provide_snapshot_exn_caught_retries_without_delay
    (caps : CinderSnapshots) (volume : Volume) (snapshot_name : String)
    (fuel k : Nat)
    (h0 : ¬ (caps.create ⟨volume.id, snapshot_name, true⟩).status
        = "available")
    (hloop : ∀ j, j < k → pendingOrExn (caps.get j) = true)
    (hk : ∃ a, caps.get k = FetchResult.ok a ∧ a.status = "available")
    (hfuel : k < fuel) :
    ∃ a, a.status = "available" ∧
      (provide_snapshot caps volume snapshot_name fuel).1
        = Outcome.returned a
            ⟨k + 1, okCount caps.get 0 k + 1, exnCount caps.get 0 k⟩ := by
  have hloop' : ∀ j, j < k → pendingOrExn (caps.get (0 + j)) = true := by
    intro j hj
    rw [Nat.zero_add]
    exact hloop j hj
  have hk' : ∃ a, caps.get (0 + k) = FetchResult.ok a ∧
      a.status = "available" := by
    rw [Nat.zero_add]
    exact hk
  obtain ⟨a, ha, heq⟩ := providePoll_success caps.get k fuel
    (caps.create ⟨volume.id, snapshot_name, true⟩) 0 0 0 h0 hloop' hk'
    hfuel
  refine ⟨a, ha, ?_⟩
  simp only [provide_snapshot]
  simpa using heq

/-- Witness for the amended C3 at the concrete fixture: one exception at
attempt 1, return after 3 attempts with 2 sleeps and 1 caught exception. -/
theorem provide_snapshot_exn_caught_retries_without_delay_witness :
    ∃ a, a.status = "available" ∧
      (provide_snapshot capsC3 ⟨1, 1, "in-use"⟩ "snap" 10).1
        = Outcome.returned a
            ⟨2 + 1, okCount capsC3.get 0 2 + 1, exnCount capsC3.get 0 2⟩ :=
  provide_snapshot_exn_caught_retries_without_delay capsC3
    ⟨1, 1, "in-use"⟩ "snap" 10 2 (by decide) (by decide)
    ⟨{ id := 6, size := 1, status := "available" }, rfl, rfl⟩ (by decide)

/-- C5: each of the four lazy accessors, called twice on a freshly
initialised `ClientManager`, returns the identical cached handle the second
time, caches it after the first call, and invokes the underlying
construction/authentication path exactly once -- on the first call only
(the `...Auths` spy is 1 after the first call and still 1 after the
second). -/
theorem get_accessors_memoize (env : ClientEnv) (d : Bool) :
    ((get_cinder env (get_cinder env (ClientManager.init d)).2).1
        = (get_cinder env (ClientManager.init d)).1 ∧
      (get_cinder env (ClientManager.init d)).2.cinder
        = some (get_cinder env (ClientManager.init d)).1 ∧
      (get_cinder env (ClientManager.init d)).2.cinderAuths = 1 ∧
      (get_cinder env (get_cinder env (ClientManager.init d)).2).2.cinderAuths
        = 1) ∧
    ((get_swift env (get_swift env (ClientManager.init d)).2).1
        = (get_swift env (ClientManager.init d)).1 ∧
      (get_swift env (ClientManager.init d)).2.swift
        = some (get_swift env (ClientManager.init d)).1 ∧
      (get_swift env (ClientManager.init d)).2.swiftAuths = 1 ∧
      (get_swift env (get_swift env (ClientManager.init d)).2).2.swiftAuths
        = 1) ∧
    ((get_glance env (get_glance env (ClientManager.init d)).2).1
        = (get_glance env (ClientManager.init d)).1 ∧
      (get_glance env (ClientManager.init d)).2.glance
        = some (get_glance env (ClientManager.init d)).1 ∧
      (get_glance env (ClientManager.init d)).2.glanceAuths = 1 ∧
      (get_glance env (get_glance env (ClientManager.init d)).2).2.glanceAuths
        = 1) ∧
    ((get_nova env (get_nova env (ClientManager.init d)).2).1
        = (get_nova env (ClientManager.init d)).1 ∧
      (get_nova env (ClientManager.init d)).2.nova
        = some (get_nova env (ClientManager.init d)).1 ∧
      (get_nova env (ClientManager.init d)).2.novaAuths = 1 ∧
      (get_nova env (get_nova env (ClientManager.init d)).2).2.novaAuths
        = 1) := by
  cases d <;>
    exact ⟨⟨rfl, rfl, rfl, rfl⟩, ⟨rfl, rfl, rfl, rfl⟩,
      ⟨rfl, rfl, rfl, rfl⟩, ⟨rfl, rfl, rfl, rfl⟩⟩

/-- C6: for every underlying connection (over every world type `α`, which
may carry arbitrary instrumentation such as a log of the calls that reach
the real connection), the wrapper's four read operations are the underlying
connection's own operations, its three mutating operations accept any
arguments, leave the world untouched and return `None`, and those mutating
stand-ins do not depend on the wrapped connection at all -- so no mutating
call can ever reach it. -/
theorem dry_run_wrapper_reads_forwarded_writes_noop (α : Type)
    (c : SwiftConn α) :
    ((DryRunSwiftclientConnectionWrapper.init c).get_object = c.get_object ∧
      (DryRunSwiftclientConnectionWrapper.init c).get_account
        = c.get_account ∧
      (DryRunSwiftclientConnectionWrapper.init c).get_container
        = c.get_container ∧
      (DryRunSwiftclientConnectionWrapper.init c).head_object
        = c.head_object) ∧
    ((∀ x y z w, (DryRunSwiftclientConnectionWrapper.init c).put_object
        x y z w = (w, SwVal.noneVal)) ∧
      (∀ x w, (DryRunSwiftclientConnectionWrapper.init c).put_container
        x w = (w, SwVal.noneVal)) ∧
      (∀ x y w, (DryRunSwiftclientConnectionWrapper.init c).delete_object
        x y w = (w, SwVal.noneVal))) ∧
    (∀ c' : SwiftConn α,
      (DryRunSwiftclientConnectionWrapper.init c').put_object
          = (DryRunSwiftclientConnectionWrapper.init c).put_object ∧
      (DryRunSwiftclientConnectionWrapper.init c').put_container
          = (DryRunSwiftclientConnectionWrapper.init c).put_container ∧
      (DryRunSwiftclientConnectionWrapper.init c').delete_object
          = (DryRunSwiftclientConnectionWrapper.init c).delete_object) :=
  ⟨⟨rfl, rfl, rfl, rfl⟩,
    ⟨fun _ _ _ _ => rfl, fun _ _ => rfl, fun _ _ _ => rfl⟩,
    fun _ => ⟨rfl, rfl, rfl⟩⟩

/-- C7: the wrapper exposes the full connection interface -- its operation
record `asConn` has the very type `SwiftConn α` of a real connection, with
the same seven operation names and shapes -- and as an interface value it
is exactly the underlying connection with only its three mutating
operations replaced by the no-op stand-ins; so interface shape cannot
distinguish the two, while observing a mutation's (non-)effect can, as the
final existential shows at a concrete connection whose `put_object` does
persist a change. -/
theorem dry_run_wrapper_same_interface_shape (α : Type) (c : SwiftConn α) :
    (DryRunSwiftclientConnectionWrapper.init c).asConn
      = ⟨c.get_object, c.get_account, c.get_container, c.head_object,
          fun _ _ _ w => (w, SwVal.noneVal),
          fun _ w => (w, SwVal.noneVal),
          fun _ _ w => (w, SwVal.noneVal)⟩ ∧
    ∃ (c' : SwiftConn Nat) (x y z : String) (w : Nat),
      (DryRunSwiftclientConnectionWrapper.init c').asConn.put_object x y z w
        ≠ c'.put_object x y z w := by
  refine ⟨rfl, ⟨⟨fun _ _ w => (w, SwVal.noneVal),
    fun w => (w, SwVal.noneVal),
    fun _ w => (w, SwVal.noneVal),
    fun _ _ w => (w, SwVal.noneVal),
    fun _ _ _ n => (n + 1, SwVal.val "etag"),
    fun _ w => (w, SwVal.noneVal),
    fun _ _ w => (w, SwVal.noneVal)⟩,
    "container", "object", "contents", 0, ?_⟩⟩
  decide

/-- C8: the volume-creation request issued by `do_copy_volume` carries
exactly the snapshot's size and the snapshot's id, and the volume the loop
then polls is the one the service created from that very request. -/
theorem do_copy_volume_request_matches_snapshot (caps : CinderVolumes)
    (snapshot : Snapshot) (fuel : Nat) :
    (do_copy_volume caps snapshot fuel).2
      = ⟨snapshot.size, snapshot.id⟩ ∧
    (do_copy_volume caps snapshot fuel).1
      = copyPoll caps.get fuel
          (caps.create (do_copy_volume caps snapshot fuel).2) 0 0 0 :=
  ⟨rfl, rfl⟩

/-- C9: `make_glance_image` issues exactly one upload-volume-as-image
request -- carrying the given volume, the force flag set to `true`, the
given name, container format `"bare"` and disk format `"raw"` -- performs
no polling, and returns the call's result directly. -/
theorem make_glance_image_single_forced_upload (caps : CinderUpload)
    (image_volume_name : String) (copy_volume : Volume) :
    (make_glance_image caps image_volume_name copy_volume).2
      = [⟨copy_volume, true, image_volume_name, "bare", "raw"⟩] ∧
    (make_glance_image caps image_volume_name copy_volume).1
      = caps.upload_to_image
          ⟨copy_volume, true, image_volume_name, "bare", "raw"⟩ :=
  ⟨rfl, rfl⟩

end Freezer
